import Mathlib

/-!
Verification of the command-execution and text-protocol translation layer of
the vmm lab manager (src/virsh_api.py), as a shallow embedding in Lean.

External effects (child processes, JSON decoding of agent replies) enter the
model as explicit inputs: a process invocation becomes a `ProcOutcome` value,
a primary address-listing call becomes a `CallOutcome`, and the guest-agent
reply arrives already decoded as an optional `Json` value.

The Python string operations the source relies on (`str.split`, `str.strip`,
`str.lower`, substring containment, `str.endswith`, `str()`/`repr()` of
decoded JSON values) are embedded as structural recursions over character
lists, so that every definition evaluates inside the kernel.  `str.lower` is
embedded for the ASCII range, which covers every string the source
lower-cases.  The pydantic v1 coercion of decoded values into the string
fields of `VMInterface` is embedded including its failure mode: a compound
value (or a null name) makes the constructor raise ValidationError, which
the guest-agent loop absorbs.
-/

/-! ### Python string primitives -/

/-- The whitespace characters of Python `str.strip()` / `str.split()`. -/
def chIsWs (c : Char) : Bool :=
  c = ' ' ∨ c = '\t' ∨ c = '\n' ∨ c = '\r' ∨ c = '\x0b' ∨ c = '\x0c'

/-- Split a character list at every whitespace character (keeping empty
pieces; they are dropped by `pySplit`). -/
def chSplitWs : List Char → List Char → List (List Char)
  | [], cur => [cur.reverse]
  | c :: cs, cur =>
    if chIsWs c then cur.reverse :: chSplitWs cs [] else chSplitWs cs (c :: cur)

/-- Python `str.split()` with no separator: split on whitespace and drop the
empty pieces. -/
def pySplit (s : String) : List String :=
  ((chSplitWs s.data []).filter (fun l => l ≠ [])).map (fun l => String.mk l)

/-- Whether `pat` occurs at the start of the list. -/
def chHasPre : List Char → List Char → Bool
  | [], _ => true
  | _ :: _, [] => false
  | p :: ps, c :: cs => p = c && chHasPre ps cs

/-- Fuel-indexed worker for separator splitting: cut at every non-overlapping
occurrence of the (non-empty) separator, left to right. -/
def chSplitOnAux (sep : List Char) : Nat → List Char → List Char → List (List Char)
  | 0, rest, cur => [cur.reverse ++ rest]
  | _ + 1, [], cur => [cur.reverse]
  | fuel + 1, c :: cs, cur =>
    if chHasPre sep (c :: cs) then
      cur.reverse :: chSplitOnAux sep fuel ((c :: cs).drop sep.length) []
    else chSplitOnAux sep fuel cs (c :: cur)

/-- Python `s.split(sep)` for a non-empty separator. -/
def strSplitOn (s sep : String) : List String :=
  (chSplitOnAux sep.data (s.data.length + 1) s.data []).map (fun l => String.mk l)

/-- Python substring containment `sep in s` (for the non-empty patterns the
source uses). -/
def containsSub (s pat : String) : Bool :=
  (strSplitOn s pat).length > 1

/-- Drop leading whitespace. -/
def chTrimLeft : List Char → List Char
  | [] => []
  | c :: cs => if chIsWs c then chTrimLeft cs else c :: cs

/-- Python `str.strip()`: drop leading and trailing whitespace. -/
def strTrim (s : String) : String :=
  String.mk ((chTrimLeft (chTrimLeft s.data).reverse).reverse)

/-- Python `str.lower()` on the ASCII range. -/
def chToLower (c : Char) : Char :=
  if 'A' ≤ c ∧ c ≤ 'Z' then Char.ofNat (c.toNat + 32) else c

/-- Python `str.lower()` on the ASCII range. -/
def strToLower (s : String) : String :=
  String.mk (s.data.map chToLower)

/-- Python `s.endswith(pat)`. -/
def strEndsWith (s pat : String) : Bool :=
  chHasPre pat.data.reverse s.data.reverse

/-- Join character lists with a separator. -/
def chJoin (sep : List Char) : List (List Char) → List Char
  | [] => []
  | [l] => l
  | l :: ls => l ++ sep ++ chJoin sep ls

/-- Python `sep.join(parts)`. -/
def strJoin (sep : String) (parts : List String) : String :=
  String.mk (chJoin sep.data (parts.map (fun p => p.data)))

/-! ### Interface-address parser -/

/-- The `VMInterface` pydantic model: one network interface record. -/
structure VMInterface where
  name : String
  mac_address : Option String := none
  protocol : Option String := none
  address : Option String := none
deriving Repr, DecidableEq

/-- Body of the data-row loop of `parse_domifaddr_output` (lines 171-193):
skip blank lines and rows of fewer than two whitespace-separated tokens,
otherwise append one record with absent trailing columns as `none`. -/
def processRow (interfaces : List VMInterface) (line : String) : List VMInterface :=
  if strTrim line = "" then interfaces
  else
    let parts := pySplit line
    if parts.length < 2 then interfaces
    else
      let name := parts.getD 0 ""
      let mac := parts.get? 1
      let protocol := parts.get? 2
      let address := parts.get? 3
      if name ≠ "" then
        interfaces ++ [{ name := name, mac_address := mac, protocol := protocol,
                         address := address }]
      else interfaces

/-- Parser `parse_domifaddr_output`: drop the two header lines, then process each
data row in order. -/
def parse_domifaddr_output (output : String) : List VMInterface :=
  ((strSplitOn output "\n").drop 2).foldl processRow []

/-! ### Command executor -/

/-- Outcome of one child-process invocation, as observed by the executor. -/
inductive ProcOutcome where
  | completed (stdout stderr : String) (returncode : Int)
  | timedOut
  | spawnError
deriving Repr, DecidableEq

/-- HTTP errors the executor can raise: 504 on timeout, 500 when the process
could not be run at all. -/
inductive HttpError where
  | timeout504
  | execError500
deriving Repr, DecidableEq

/-- Combined-output construction of `run_virsh_command` (lines 140-143):
trimmed stdout, with trimmed stderr appended on a failure that produced
error text, on a new line only when the trimmed stdout is non-empty. -/
def combineOutput (stdout stderr : String) (returncode : Int) : String :=
  let output := strTrim stdout
  if returncode ≠ 0 ∧ strTrim stderr ≠ "" then
    if output ≠ "" then output ++ "\n" ++ strTrim stderr else strTrim stderr
  else output

/-- Executor `run_virsh_command` (lines 130-154): a completed process yields its
combined output and exit code as data; a timeout raises 504; any failure to
run the process raises 500. -/
def run_virsh_command (outcome : ProcOutcome) : Except HttpError (String × Int) :=
  match outcome with
  | .completed out err code => .ok (combineOutput out err code, code)
  | .timedOut => .error .timeout504
  | .spawnError => .error .execError500

/-! ### Network resolution -/

/-- Outcome of the primary address-listing call, as seen by its caller:
either the executor raised (timeout, spawn failure) or the call completed
with a combined output and exit code. -/
inductive CallOutcome where
  | raised
  | completed (output : String) (returncode : Int)
deriving Repr, DecidableEq

/-- Per-VM interface resolution inside `list_vms_with_ips` (lines 468-501).
Inputs: the state string of the VM, the outcome of the `domifaddr` call, and
the (pure) result the guest-agent resolver would return.  Output: the
resolved interface list together with the number of `domifaddr` calls and of
guest-agent calls issued. -/
def resolve_interfaces_for_vm (state : String) (primary : CallOutcome)
    (agent : List VMInterface) : List VMInterface × Nat × Nat :=
  if strToLower state ∈ ["running", "idle", "paused"] then
    match primary with
    | .raised => (agent, 1, 1)
    | .completed out code =>
      let interfaces := if code = 0 then parse_domifaddr_output out else []
      if interfaces.isEmpty then (agent, 1, 1) else (interfaces, 1, 0)
  else ([], 0, 0)

/-- Result of the `get_vm_ip` endpoint body. -/
inductive GetIpOutcome where
  | raisedFromExecutor
  | notFound404
  | notRunning400
  | failed500
  | ok (interfaces : List VMInterface)
deriving Repr, DecidableEq

/-- Endpoint body `get_vm_ip` (lines 867-914): classify a non-zero exit by substring
matching and raise; on exit 0 parse, falling back to the guest agent only
when zero records were parsed.  The second component counts guest-agent
calls. -/
def get_vm_ip (primary : CallOutcome) (agent : List VMInterface) :
    GetIpOutcome × Nat :=
  match primary with
  | .raised => (.raisedFromExecutor, 0)
  | .completed out code =>
    if code ≠ 0 then
      (if containsSub (strToLower out) "not found" ||
          containsSub (strToLower out) "no domain" then
         .notFound404
       else if containsSub (strToLower out) "not running" ||
               containsSub (strToLower out) "shut off" then
         .notRunning400
       else .failed500, 0)
    else
      let interfaces := parse_domifaddr_output out
      if interfaces.isEmpty then (.ok agent, 1) else (.ok interfaces, 0)

/-! ### Guest-agent resolver -/

/-- Decoded JSON value of the guest-agent reply. -/
inductive Json where
  | null
  | bool (b : Bool)
  | num (n : Int)
  | str (s : String)
  | arr (elems : List Json)
  | obj (fields : List (String × Json))
deriving Repr

/-- Python dict lookup on a decoded JSON object; a later duplicate key
overwrites an earlier one, as `json.loads` does. -/
def jLookup (fields : List (String × Json)) (k : String) : Option Json :=
  ((fields.filter (fun kv => kv.1 = k)).getLast?).map (fun kv => kv.2)

/-- Python truthiness of a decoded JSON value. -/
def pyTruthy : Json → Bool
  | .null => false
  | .bool b => b
  | .num n => n ≠ 0
  | .str s => s ≠ ""
  | .arr xs => !xs.isEmpty
  | .obj kvs => !kvs.isEmpty

/-- Lower-case hexadecimal digit for a value below 16. -/
def hexDigitCh (n : Nat) : Char :=
  if n < 10 then Char.ofNat (48 + n) else Char.ofNat (87 + n)

/-- The single-quote character, by code point. -/
def sqCh : Char := Char.ofNat 39

/-- Quote character Python repr picks for a string literal: the single
quote, or the double quote when the string contains a single quote but no
double quote. -/
def pyQuoteCh (s : List Char) : Char :=
  if s.contains sqCh && !(s.contains '"') then '"' else sqCh

/-- Python repr escaping of one character inside a string literal delimited
by `q`: the backslash and the delimiter are backslash-escaped; newline,
carriage return and tab take their short escapes; the remaining ASCII
control characters and delete take a two-digit hex escape; every other
character is kept.  (Python additionally hex-escapes unprintable code
points beyond ASCII.) -/
def pyReprChar (q : Char) (c : Char) : List Char :=
  if c = '\\' ∨ c = q then ['\\', c]
  else if c = '\n' then ['\\', 'n']
  else if c = '\r' then ['\\', 'r']
  else if c = '\t' then ['\\', 't']
  else if c.toNat < 32 ∨ c.toNat = 127 then
    ['\\', 'x', hexDigitCh (c.toNat / 16), hexDigitCh (c.toNat % 16)]
  else [c]

/-- Python repr of a string value: the chosen quote around the escaped
characters. -/
def pyReprStr (s : String) : String :=
  let q := pyQuoteCh s.data
  String.mk ([q] ++ (s.data.map (pyReprChar q)).flatten ++ [q])

mutual

/-- Python repr of a decoded JSON value: `None`/`True`/`False`, decimal
numbers, quoted-and-escaped strings, bracketed comma-joined lists, and
braced comma-joined `key: value` objects. -/
def pyReprJ : Json → String
  | .null => "None"
  | .bool b => if b then "True" else "False"
  | .num n => toString n
  | .str s => pyReprStr s
  | .arr xs => String.mk ('[' :: chJoin [',', ' '] (pyReprArr xs) ++ [']'])
  | .obj kvs =>
    String.mk (Char.ofNat 123 :: chJoin [',', ' '] (pyReprObj kvs) ++
      [Char.ofNat 125])

/-- The elementwise reprs of a list value. -/
def pyReprArr : List Json → List (List Char)
  | [] => []
  | j :: js => (pyReprJ j).data :: pyReprArr js

/-- The `key: value` reprs of an object value. -/
def pyReprObj : List (String × Json) → List (List Char)
  | [] => []
  | (k, v) :: kvs =>
    ((pyReprStr k).data ++ [':', ' '] ++ (pyReprJ v).data) :: pyReprObj kvs

end

/-- Python str() of a decoded JSON value, as the f-string at line 256
applies it: a string is itself, anything else is its repr. -/
def pyStr : Json → String
  | .str s => s
  | j => pyReprJ j

/-- Pydantic v1 coercion of a present value into an `Optional[str]` field of
`VMInterface`: JSON null becomes `none`, a boolean or number is coerced to
its Python string form, a string is kept, and a compound value (list or
object) is rejected — the constructor raises ValidationError, which the
result `none` marks. -/
def pyStrFieldOpt : Option Json → Option (Option String)
  | none => some none
  | some .null => some none
  | some (.bool b) => some (some (if b then "True" else "False"))
  | some (.num n) => some (some (toString n))
  | some (.str s) => some (some s)
  | some (.arr _) => none
  | some (.obj _) => none

/-- Pydantic v1 coercion into the required `name : str` field: a scalar
coerces as for the optional fields, while null and compound values are
rejected (`none` marks the raised ValidationError). -/
def pyStrFieldReq : Json → Option String
  | .null => none
  | .bool b => some (if b then "True" else "False")
  | .num n => some (toString n)
  | .str s => some s
  | .arr _ => none
  | .obj _ => none

/-- Whether a decoded JSON value is a scalar — the shapes a guest agent
emits for the per-interface fields, and exactly the values the pydantic
field coercion accepts without raising (null raising only for `name`). -/
def jScalar : Json → Bool
  | .null => true
  | .bool _ => true
  | .num _ => true
  | .str _ => true
  | .arr _ => false
  | .obj _ => false

/-- One address entry of the inner loop (lines 249-269): the default-valued
field reads, the address/prefix formatting, and the pydantic construction of
the record from the raw name and mac values; `none` marks a raised
ValidationError. -/
def entryRecord (nameVal : Json) (macVal : Option Json)
    (e : List (String × Json)) : Option VMInterface :=
  let ip_type := (jLookup e "ip-address-type").getD (.str "")
  let ip_addr := (jLookup e "ip-address").getD (.str "")
  let prefixVal := (jLookup e "prefix").getD (.str "")
  let formatted : Json :=
    if pyTruthy ip_addr && pyTruthy prefixVal then
      .str (pyStr ip_addr ++ "/" ++ pyStr prefixVal)
    else ip_addr
  match pyStrFieldReq nameVal, pyStrFieldOpt macVal,
        pyStrFieldOpt (some ip_type), pyStrFieldOpt (some formatted) with
  | some nm, some mac, some protocol, some addr =>
    some { name := nm, mac_address := mac, protocol := protocol, address := addr }
  | _, _, _, _ => none

/-- Inner loop of the guest-agent resolver (lines 249-269): one record per
address entry; a failed field coercion or a non-object entry raises.  The
Bool reports whether the loop raised; records appended before the raise are
kept, as the except-pass handler does. -/
def processEntries (nameVal : Json) (macVal : Option Json) :
    List Json → List VMInterface × Bool
  | [] => ([], false)
  | .obj e :: rest =>
    match entryRecord nameVal macVal e with
    | some record =>
      let tail := processEntries nameVal macVal rest
      (record :: tail.1, tail.2)
    | none => ([], true)
  | _ :: _ => ([], true)

/-- Python equality of an optional decoded JSON value with a string literal:
true exactly when the value is that string. -/
def jIsStr (v : Option Json) (s : String) : Bool :=
  match v with
  | some (.str t) => t = s
  | _ => false

/-- One iteration of the outer loop (lines 239-269): skip the loopback
interface, default a missing address list to empty and a missing name to
the `unknown` marker, and raise (Bool `true`) when the descriptor or its
address list has a shape the Python attribute accesses or iteration would
reject. -/
def processIface : Json → List VMInterface × Bool
  | .obj kvs =>
    if jIsStr (jLookup kvs "name") "lo" then ([], false)
    else
      let macVal := jLookup kvs "hardware-address"
      let nameVal := (jLookup kvs "name").getD (.str "unknown")
      match jLookup kvs "ip-addresses" with
      | none => ([], false)
      | some (.arr entries) => processEntries nameVal macVal entries
      | some (.str "") => ([], false)
      | some (.obj []) => ([], false)
      | some _ => ([], true)
  | _ => ([], true)

/-- The outer loop over the reply list: a raised iteration stops the loop
and the records accumulated so far are returned by the handler. -/
def processReturnList : List Json → List VMInterface
  | [] => []
  | iface :: rest =>
    let step := processIface iface
    if step.2 then step.1 else step.1 ++ processReturnList rest

/-- Outcome of the guest-agent subprocess call: `failed` covers a timeout or
spawn failure raised inside the try block; otherwise the process completed
and its stdout either decoded to a JSON value or was malformed (`none`). -/
inductive AgentProcOutcome where
  | failed
  | completed (returncode : Int) (decoded : Option Json)
deriving Repr

/-- Resolver `get_vm_interfaces_via_guest_agent` (lines 198-274): empty on a raised
call, a non-zero exit, malformed JSON, or a reply without a list-valued
top-level success field; otherwise the records produced by the loop. -/
def get_vm_interfaces_via_guest_agent : AgentProcOutcome → List VMInterface
  | .failed => []
  | .completed rc decoded =>
    if rc ≠ 0 then []
    else
      match decoded with
      | some (.obj kvs) =>
        match jLookup kvs "return" with
        | some (.arr ifaces) => processReturnList ifaces
        | _ => []
      | _ => []

/-! ### Linked-clone orchestrator -/

/-- Positional arguments handed to the clone helper after the script path
(`create_linked_clone`, lines 763-775): source name, new name, then the disk
target whenever it is not absent, then — for a truthy connection target — an
empty-string placeholder when the disk target was absent, and the connection
target itself. -/
def build_clone_args (vm_name new_vm_name : String)
    (disk_target connection_uri : Option String) : List String :=
  let cmd := [vm_name, new_vm_name]
  let cmd :=
    match disk_target with
    | some d => cmd ++ [d]
    | none => cmd
  match connection_uri with
  | some c =>
    if c ≠ "" then
      (match disk_target with
       | none => cmd ++ [""]
       | some _ => cmd) ++ [c]
    else cmd
  | none => cmd

/-- Body of the artifact-path scan loop of `create_linked_clone`
(lines 816-825): on a line carrying the creation marker (case-insensitive)
or the disk-image extension, the first token ending in the extension
overwrites the accumulator; otherwise the accumulator is kept. -/
def diskPathStep (disk_path : Option String) (line : String) : Option String :=
  if containsSub (strToLower line) "created at" || containsSub line ".qcow2" then
    match (pySplit line).find? (fun part => strEndsWith part ".qcow2") with
    | some part => some part
    | none => disk_path
  else disk_path

/-- The artifact-path scan over the helper's standard output. -/
def extract_disk_path (stdout : String) : Option String :=
  (strSplitOn stdout "\n").foldl diskPathStep none

/-- The token a single line contributes to the scan, when it contributes
one. -/
def lineToken (line : String) : Option String :=
  if containsSub (strToLower line) "created at" || containsSub line ".qcow2" then
    (pySplit line).find? (fun part => strEndsWith part ".qcow2")
  else none

/-- The token of the last line contributing one: the declarative reading of
the scan loop. -/
def lastQcow2Token : List String → Option String
  | [] => none
  | line :: rest =>
    match lastQcow2Token rest with
    | some t => some t
    | none => lineToken line

/-- Success-path response of `create_linked_clone` (lines 827-833), without
the human-readable message text. -/
structure LinkedCloneResponse where
  success : Bool
  source_vm : String
  new_vm_name : String
  disk_path : Option String
deriving Repr, DecidableEq

/-- The response built on the success path of `create_linked_clone`. -/
def linked_clone_success (vm_name new_vm_name stdout : String) :
    LinkedCloneResponse :=
  { success := true, source_vm := vm_name, new_vm_name := new_vm_name,
    disk_path := extract_disk_path stdout }

/-! ### Deletion orchestrator -/

/-- State extraction of `delete_vm` (lines 994-998): the first line holding
the `State:` key, split at its first colon, trimmed and lower-cased. -/
def extract_vm_state (stdout : String) : Option String :=
  (((strSplitOn stdout "\n").filter (fun l => containsSub l "State:")).head?).map
    (fun l => strToLower (strTrim (strJoin ":" (strSplitOn l ":").tail)))

/-- Result of the deletion orchestrator. -/
inductive DeleteResult where
  | notFound
  | stopFailed
  | deleteFailed
  | success
deriving Repr, DecidableEq

/-- Orchestrator `delete_vm` (lines 984-1026).  Inputs: the dominfo call's combined
output and exit code, and the exit codes the destroy and undefine calls
would return.  Output: the result together with the ordered list of
state-changing calls actually issued. -/
def delete_vm (dominfoOut : String) (dominfoCode destroyCode undefineCode : Int) :
    DeleteResult × List String :=
  if dominfoCode ≠ 0 then (.notFound, [])
  else
    let vm_state := extract_vm_state dominfoOut
    let running :=
      match vm_state with
      | some s => (!s.isEmpty) && containsSub s "running"
      | none => false
    if running then
      if destroyCode ≠ 0 then (.stopFailed, ["destroy"])
      else if undefineCode ≠ 0 then (.deleteFailed, ["destroy", "undefine"])
      else (.success, ["destroy", "undefine"])
    else
      if undefineCode ≠ 0 then (.deleteFailed, ["undefine"])
      else (.success, ["undefine"])

/-! ### Claim theorems -/

/-- C1, counterexample: a data row containing only a name token does not
yield a NetworkInterface record with all optional fields `none` — the parser
skips any row with fewer than two tokens, so the result is empty. -/
theorem C1_counterexample :
    parse_domifaddr_output
      "Name       MAC address          Protocol     Address\n-------------------------------------------------------\nvnet0"
      = [] ∧
    parse_domifaddr_output
      "Name       MAC address          Protocol     Address\n-------------------------------------------------------\nvnet0"
      ≠ [{ name := "vnet0" }] := by
  exact ⟨by decide, by decide⟩

/-- C1 (amended): the Interface-Address Parser skips any data row with fewer
than two whitespace-separated tokens (in particular a row with only a name);
for every non-blank data row with two, three or four tokens, trailing
columns that are absent default to `none` rather than being dropped or set
to empty string. -/
theorem C1_row_defaults :
    (∀ out, parse_domifaddr_output out = ((strSplitOn out "\n").drop 2).foldl processRow []) ∧
    ∀ (acc : List VMInterface) (l : String),
      ((pySplit l).length < 2 → processRow acc l = acc) ∧
      (∀ a b, strTrim l ≠ "" → pySplit l = [a, b] → a ≠ "" →
        processRow acc l = acc ++ [{ name := a, mac_address := some b }]) ∧
      (∀ a b c, strTrim l ≠ "" → pySplit l = [a, b, c] → a ≠ "" →
        processRow acc l = acc ++ [{ name := a, mac_address := some b, protocol := some c }]) ∧
      (∀ a b c d, strTrim l ≠ "" → pySplit l = [a, b, c, d] → a ≠ "" →
        processRow acc l = acc ++ [{ name := a, mac_address := some b, protocol := some c,
                                     address := some d }]) := by
  refine ⟨fun out => rfl, ?_⟩
  intro acc l
  refine ⟨?_, ?_, ?_, ?_⟩
  · intro h
    by_cases ht : strTrim l = ""
    · simp [processRow, ht]
    · simp [processRow, ht, h]
  · intro a b ht hp ha
    simp [processRow, ht, hp, ha, List.getD]
  · intro a b c ht hp ha
    simp [processRow, ht, hp, ha, List.getD]
  · intro a b c d ht hp ha
    simp [processRow, ht, hp, ha, List.getD]

/-- C1, witness: the amended theorem applied to the fully-populated example
row. -/
theorem C1_witness :
    (strTrim "vnet0 52:54:00:12:34:56 ipv4 192.168.122.100/24" ≠ "") ∧
    processRow [] "vnet0 52:54:00:12:34:56 ipv4 192.168.122.100/24"
      = [{ name := "vnet0", mac_address := some "52:54:00:12:34:56",
           protocol := some "ipv4", address := some "192.168.122.100/24" }] :=
  ⟨by decide,
   (C1_row_defaults.2 [] _).2.2.2 "vnet0" "52:54:00:12:34:56" "ipv4" "192.168.122.100/24"
     (by decide) (by decide) (by decide)⟩

/-- C2: the positional argument list built for the clone helper is
`[source, new]` when both optional fields are absent; `[source, new, ""]`
when the disk target is the explicit empty string; and
`[source, new, "", target]` — with an empty-string placeholder third — when
the disk target is absent but a non-empty connection target is given. -/
theorem C2_clone_args :
    ∀ v n : String,
      build_clone_args v n none none = [v, n] ∧
      build_clone_args v n (some "") none = [v, n, ""] ∧
      ∀ c : String, c ≠ "" → build_clone_args v n none (some c) = [v, n, "", c] := by
  intro v n
  refine ⟨rfl, rfl, ?_⟩
  intro c hc
  simp [build_clone_args, hc]

/-- C2, witness: the theorem applied at a concrete connection target. -/
theorem C2_witness :
    ("qemu:///system" ≠ "") ∧
    build_clone_args "vm1" "clone1" none (some "qemu:///system")
      = ["vm1", "clone1", "", "qemu:///system"] :=
  ⟨by decide, (C2_clone_args "vm1" "clone1").2.2 "qemu:///system" (by decide)⟩

/-- C3, counterexample: in `get_vm_ip` a primary call that completes with a
non-zero exit is propagated as an error and the guest agent is never
attempted (zero guest-agent calls), contrary to the claim that every
primary-call failure falls through to the Guest-Agent Resolver. -/
theorem C3_counterexample :
    get_vm_ip (.completed "error: internal failure" 1) [{ name := "eth0" }]
      = (.failed500, 0) := by
  decide

/-- C3 (amended): in `list_vms_with_ips`, for a running-family VM, a primary
call that raises or exits non-zero or parses to zero records always falls
through to the guest agent, whose result is returned as is; in `get_vm_ip`,
by contrast, the guest agent is attempted exactly when the primary call
succeeds with zero parsed records, and a non-zero exit never produces a
success result. -/
theorem C3_fallback :
    (∀ (state : String) (primary : CallOutcome) (agent : List VMInterface),
      strToLower state ∈ ["running", "idle", "paused"] →
      (primary = .raised ∨
        ∀ out code, primary = .completed out code →
          (code ≠ 0 ∨ parse_domifaddr_output out = [])) →
      resolve_interfaces_for_vm state primary agent = (agent, 1, 1)) ∧
    (∀ (primary : CallOutcome) (agent : List VMInterface),
      ((get_vm_ip primary agent).2 = 1 ↔
        ∃ out, primary = .completed out 0 ∧ parse_domifaddr_output out = [])) ∧
    (∀ (agent : List VMInterface) (out : String) (code : Int), code ≠ 0 →
      ∀ l, (get_vm_ip (.completed out code) agent).1 ≠ .ok l) := by
  refine ⟨?_, ?_, ?_⟩
  · intro state primary agent hstate hfail
    rw [resolve_interfaces_for_vm.eq_def, if_pos hstate]
    cases primary with
    | raised => rfl
    | completed out code =>
      rcases hfail with h | h
      · exact absurd h (by simp)
      · rcases h out code rfl with hc | hp
        · simp [hc]
        · by_cases hc0 : code = 0 <;> simp [hc0, hp]
  · intro primary agent
    cases primary with
    | raised => simp [get_vm_ip]
    | completed out code =>
      by_cases hc : code = 0
      · subst hc
        by_cases hp : parse_domifaddr_output out = []
        · simp [get_vm_ip, hp]
        · simp [get_vm_ip, hp, List.isEmpty_iff]
      · simp [get_vm_ip, hc, List.isEmpty_iff]
  · intro agent out code hc l
    simp only [get_vm_ip, if_pos hc]
    split
    · simp
    · split <;> simp

/-- C3, witness: the amended theorem applied to a running VM whose primary
call exits non-zero, which falls through to the guest agent. -/
theorem C3_witness :
    (strToLower "Running" ∈ ["running", "idle", "paused"]) ∧
    resolve_interfaces_for_vm "Running" (.completed "error: x" 1) [{ name := "eth0" }]
      = ([{ name := "eth0" }], 1, 1) :=
  ⟨by decide,
   C3_fallback.1 "Running" (.completed "error: x" 1) [{ name := "eth0" }] (by decide)
     (Or.inr (fun out code h => by
        cases h
        exact Or.inl (by decide)))⟩

/-- C4: in the Deletion Orchestrator, a VM whose queried state is `shut off`
gets no force-stop call and exactly the undefine call; a VM whose queried
state contains the running token gets the force-stop call followed by the
undefine call when the force-stop exits 0, and only the force-stop call when
it exits non-zero. -/
theorem C4_delete_sequence :
    ∀ (out : String) (dC uC : Int),
      (extract_vm_state out = some "shut off" →
        (delete_vm out 0 dC uC).2 = ["undefine"]) ∧
      (∀ s, extract_vm_state out = some s → containsSub s "running" = true →
        (dC = 0 → (delete_vm out 0 dC uC).2 = ["destroy", "undefine"]) ∧
        (dC ≠ 0 → (delete_vm out 0 dC uC).2 = ["destroy"])) := by
  intro out dC uC
  constructor
  · intro h
    have hrun : ((!String.isEmpty "shut off") && containsSub "shut off" "running") = false := by
      decide
    by_cases hu : uC = 0 <;> simp [delete_vm, h, hrun, hu]
  · intro s hs hr
    have hne : s.isEmpty = false := by
      cases hse : s.isEmpty
      · rfl
      · exfalso
        have hs0 : s = "" := (String.isEmpty_iff s).mp hse
        rw [hs0] at hr
        exact absurd hr (by decide)
    constructor
    · intro hd
      by_cases hu : uC = 0 <;> simp [delete_vm, hs, hne, hr, hd, hu]
    · intro hd
      simp [delete_vm, hs, hne, hr, hd]

/-- C4, witness: the theorem applied to concrete dominfo outputs for a
running VM (with succeeding and failing force-stop) and a shut-off VM. -/
theorem C4_witness :
    (extract_vm_state "Id: 7\nName: web01\nState: running\n" = some "running") ∧
    (containsSub "running" "running" = true) ∧
    (delete_vm "Id: 7\nName: web01\nState: running\n" 0 0 0).2 = ["destroy", "undefine"] ∧
    (delete_vm "Id: 7\nName: web01\nState: running\n" 0 1 0).2 = ["destroy"] ∧
    (delete_vm "Id: -\nName: web01\nState: shut off\n" 0 0 0).2 = ["undefine"] :=
  ⟨by decide, by decide,
   ((C4_delete_sequence "Id: 7\nName: web01\nState: running\n" 0 0).2 "running"
      (by decide) (by decide)).1 rfl,
   ((C4_delete_sequence "Id: 7\nName: web01\nState: running\n" 1 0).2 "running"
      (by decide) (by decide)).2 (by decide),
   (C4_delete_sequence "Id: -\nName: web01\nState: shut off\n" 0 0).1 (by decide)⟩

/-- C5: on exit 0 the combined output is the trimmed stdout; on a non-zero
exit with non-empty trimmed stderr it is the trimmed stdout with the trimmed
stderr appended on a new line, or the trimmed stderr alone when the trimmed
stdout is empty. -/
theorem C5_combined_output :
    ∀ (stdout stderr : String) (code : Int),
      (code = 0 → combineOutput stdout stderr code = strTrim stdout) ∧
      (code ≠ 0 → strTrim stderr ≠ "" →
        combineOutput stdout stderr code =
          if strTrim stdout ≠ "" then strTrim stdout ++ "\n" ++ strTrim stderr
          else strTrim stderr) := by
  intro stdout stderr code
  constructor
  · intro h
    simp [combineOutput, h]
  · intro hc he
    simp [combineOutput, hc, he]

/-- C5, witness: the theorem applied to a failing call with both streams
non-empty. -/
theorem C5_witness :
    ((1 : Int) ≠ 0) ∧ (strTrim " oops " ≠ "") ∧
    combineOutput "  out  " " oops " 1 = "out\noops" := by
  refine ⟨by decide, by decide, ?_⟩
  have h := (C5_combined_output "  out  " " oops " 1).2 (by decide) (by decide)
  rw [h]
  decide

/-- C6: the executor raises the timeout error exactly on a timed-out
process, raises the execution error exactly on a process that could not be
spawned, and returns a non-zero exit code as data together with the combined
output, never raising for it. -/
theorem C6_executor_errors :
    ∀ o : ProcOutcome,
      (run_virsh_command o = .error .timeout504 ↔ o = .timedOut) ∧
      (run_virsh_command o = .error .execError500 ↔ o = .spawnError) ∧
      (∀ stdout stderr code, code ≠ 0 → o = .completed stdout stderr code →
        run_virsh_command o = .ok (combineOutput stdout stderr code, code)) := by
  intro o
  cases o <;> simp_all [run_virsh_command]

/-- C6, witness: the theorem applied to a completed process with exit
code 2. -/
theorem C6_witness :
    ((2 : Int) ≠ 0) ∧
    run_virsh_command (.completed "" "boom" 2) = .ok (combineOutput "" "boom" 2, 2) :=
  ⟨by decide,
   (C6_executor_errors (.completed "" "boom" 2)).2.2 "" "boom" 2 (by decide) rfl⟩

/-- C7: for a VM whose state is not in the running family, resolution yields
the empty interface list with zero address-listing calls and zero
guest-agent calls. -/
theorem C7_non_running_no_calls :
    ∀ (state : String) (primary : CallOutcome) (agent : List VMInterface),
      strToLower state ∉ ["running", "idle", "paused"] →
      resolve_interfaces_for_vm state primary agent = ([], 0, 0) := by
  intro state primary agent h
  rw [resolve_interfaces_for_vm.eq_def, if_neg h]

/-- C7, witness: the theorem applied to a shut-off VM. -/
theorem C7_witness :
    (strToLower "shut" ∉ ["running", "idle", "paused"]) ∧
    resolve_interfaces_for_vm "shut" (.completed "x" 0) [{ name := "eth0" }] = ([], 0, 0) :=
  ⟨by decide, C7_non_running_no_calls "shut" (.completed "x" 0) [{ name := "eth0" }] (by decide)⟩

/-- A scalar value is accepted by the optional-field coercion. -/
theorem pyStrFieldOpt_of_scalar (v : Json) (h : jScalar v = true) :
    ∃ x, pyStrFieldOpt (some v) = some x := by
  cases v <;> simp [pyStrFieldOpt] <;> simp [jScalar] at h

/-- A string value is kept as is by the optional-field coercion. -/
theorem pyStrFieldOpt_str (s : String) :
    pyStrFieldOpt (some (.str s)) = some (some s) := rfl

/-- An address entry whose type and address fields are scalars, under
successfully-coerced name and mac values, constructs a record carrying that
name and mac. -/
theorem entryRecord_of_scalar (nameVal : Json) (macVal : Option Json)
    (nm : String) (mac : Option String) (e : List (String × Json))
    (hn : pyStrFieldReq nameVal = some nm)
    (hm : pyStrFieldOpt macVal = some mac)
    (ht : jScalar ((jLookup e "ip-address-type").getD (.str "")) = true)
    (ha : jScalar ((jLookup e "ip-address").getD (.str "")) = true) :
    ∃ r, entryRecord nameVal macVal e = some r ∧ r.name = nm ∧ r.mac_address = mac := by
  obtain ⟨pt, hpt⟩ := pyStrFieldOpt_of_scalar _ ht
  by_cases hc : (pyTruthy ((jLookup e "ip-address").getD (Json.str "")) &&
      pyTruthy ((jLookup e "prefix").getD (Json.str ""))) = true
  · simp only [entryRecord, hn, hm, hpt, if_pos hc, pyStrFieldOpt_str]
    exact ⟨_, rfl, rfl, rfl⟩
  · obtain ⟨fa, hfa⟩ := pyStrFieldOpt_of_scalar _ ha
    simp only [entryRecord, hn, hm, hpt, if_neg hc, hfa]
    exact ⟨_, rfl, rfl, rfl⟩

/-- C8: the Guest-Agent Resolver returns the empty list on a raised call, on
any non-zero exit, and on malformed JSON; it skips an interface whose name
field is the loopback name; and for an interface whose name and mac coerce
and whose address entries are well-formed (objects with scalar type and
address fields) it emits exactly one record per entry, all sharing the
interface name and mac, without raising. -/
theorem C8_guest_agent :
    (get_vm_interfaces_via_guest_agent .failed = []) ∧
    (∀ (rc : Int) (decoded : Option Json), rc ≠ 0 →
      get_vm_interfaces_via_guest_agent (.completed rc decoded) = []) ∧
    (get_vm_interfaces_via_guest_agent (.completed 0 none) = []) ∧
    (∀ kvs, jIsStr (jLookup kvs "name") "lo" = true →
      processIface (.obj kvs) = ([], false)) ∧
    (∀ (nameVal : Json) (macVal : Option Json) (nm : String) (mac : Option String)
        (es : List (List (String × Json))),
      pyStrFieldReq nameVal = some nm →
      pyStrFieldOpt macVal = some mac →
      (∀ e ∈ es, jScalar ((jLookup e "ip-address-type").getD (.str "")) = true ∧
                 jScalar ((jLookup e "ip-address").getD (.str "")) = true) →
      (processEntries nameVal macVal (es.map .obj)).2 = false ∧
      (processEntries nameVal macVal (es.map .obj)).1.length = es.length ∧
      ∀ r ∈ (processEntries nameVal macVal (es.map .obj)).1,
        r.name = nm ∧ r.mac_address = mac) := by
  refine ⟨rfl, ?_, rfl, ?_, ?_⟩
  · intro rc d h
    simp [get_vm_interfaces_via_guest_agent, h]
  · intro kvs h
    simp [processIface, h]
  · intro nameVal macVal nm mac es hn hm hwf
    induction es with
    | nil => simp [processEntries]
    | cons e rest ih =>
      obtain ⟨hwt, hwa⟩ := hwf e (List.mem_cons_self e rest)
      obtain ⟨r, hr, hrn, hrm⟩ := entryRecord_of_scalar nameVal macVal nm mac e hn hm hwt hwa
      have ih2 := ih (fun x hx => hwf x (List.mem_cons_of_mem e hx))
      simp only [List.map_cons, processEntries, hr]
      refine ⟨ih2.1, by simp [ih2.2.1], ?_⟩
      intro s hs
      rcases List.mem_cons.mp hs with h | h
      · subst h; exact ⟨hrn, hrm⟩
      · exact ih2.2.2 s h

/-- C8, witness: the theorem applied to a non-zero exit, to a loopback
descriptor, and to a well-formed single-entry interface; plus the absorbed
ValidationError of a compound-typed entry, which yields zero records. -/
theorem C8_witness :
    ((1 : Int) ≠ 0) ∧
    get_vm_interfaces_via_guest_agent (.completed 1 (some (.obj [("return", .str "x")]))) = [] ∧
    (jIsStr (jLookup [("name", Json.str "lo")] "name") "lo" = true) ∧
    processIface (.obj [("name", Json.str "lo")]) = ([], false) ∧
    get_vm_interfaces_via_guest_agent (.completed 0 (some (.obj [("return", .arr
      [.obj [("name", .str "eth0"),
             ("ip-addresses", .arr [.obj [("ip-address-type", .arr [.num 1])]])]])])))
      = [] ∧
    (processEntries (.str "eth0") (some (.str "52:54:00:aa"))
        ([[("ip-address", Json.str "10.0.0.1"), ("prefix", Json.num 24),
           ("ip-address-type", Json.str "ipv4")]].map .obj)).1.length = 1 :=
  ⟨by decide, C8_guest_agent.2.1 1 _ (by decide), by decide,
   C8_guest_agent.2.2.2.1 [("name", Json.str "lo")] (by decide), by decide,
   (C8_guest_agent.2.2.2.2 (.str "eth0") (some (.str "52:54:00:aa")) "eth0"
      (some "52:54:00:aa")
      [[("ip-address", Json.str "10.0.0.1"), ("prefix", Json.num 24),
        ("ip-address-type", Json.str "ipv4")]]
      (by decide) (by decide) (by decide)).2.1⟩

/-- One step of the scan loop equals the contribution of the line it
processes. -/
theorem diskPathStep_eq_lineToken (acc : Option String) (l : String) :
    diskPathStep acc l =
      match lineToken l with
      | some t => some t
      | none => acc := by
  by_cases h : (containsSub (strToLower l) "created at" || containsSub l ".qcow2") = true
  · simp only [diskPathStep, lineToken, if_pos h]
  · simp only [diskPathStep, lineToken, if_neg h]

/-- The scan loop computes the token of the last contributing line, or its
initial accumulator when no line contributes one. -/
theorem foldl_diskPathStep (ls : List String) (acc : Option String) :
    ls.foldl diskPathStep acc =
      match lastQcow2Token ls with
      | some t => some t
      | none => acc := by
  induction ls generalizing acc with
  | nil => rfl
  | cons l rest ih =>
    rw [List.foldl_cons, ih]
    cases h : lastQcow2Token rest
    · rw [diskPathStep_eq_lineToken]
      simp only [lastQcow2Token, h]
    · simp only [lastQcow2Token, h]

/-- C10: the success-path response always reports success, and its artifact
path is the first `.qcow2`-suffixed token of the last standard-output line
that carries the creation marker or the extension and holds such a token —
`none`, still with success, when no line yields a token. -/
theorem C10_disk_path_scan :
    ∀ v n stdout : String,
      (linked_clone_success v n stdout).success = true ∧
      (linked_clone_success v n stdout).disk_path
        = lastQcow2Token (strSplitOn stdout "\n") := by
  intro v n stdout
  refine ⟨rfl, ?_⟩
  show extract_disk_path stdout = _
  unfold extract_disk_path
  rw [foldl_diskPathStep]
  cases lastQcow2Token (strSplitOn stdout "\n") <;> rfl

/-- C9: when the dominfo output has no `State:` line, or the parsed state
does not contain the running token, the force-stop step is skipped and the
undefine call is issued directly — exactly the non-running behaviour. -/
theorem C9_unparseable_state :
    ∀ (out : String) (dC uC : Int),
      (extract_vm_state out = none ∨
        ∃ s, extract_vm_state out = some s ∧ containsSub s "running" = false) →
      (delete_vm out 0 dC uC).2 = ["undefine"] := by
  intro out dC uC h
  have hrun :
      (match extract_vm_state out with
        | some s => (!s.isEmpty) && containsSub s "running"
        | none => false) = false := by
    rcases h with h | ⟨s, hs, hr⟩
    · rw [h]
    · rw [hs]
      simp [hr]
  by_cases hu : uC = 0 <;> simp [delete_vm, hrun, hu]

/-- C9, witness: the theorem applied to a dominfo output without a `State:`
line. -/
theorem C9_witness :
    (extract_vm_state "Name: web01\nUUID: abc\n" = none) ∧
    (delete_vm "Name: web01\nUUID: abc\n" 0 5 0).2 = ["undefine"] :=
  ⟨by decide,
   C9_unparseable_state "Name: web01\nUUID: abc\n" 5 0 (Or.inl (by decide))⟩
